import Mathlib

/-!
Shallow embedding of the reconciliation engine of the adguard-rewrite-sync
repository, and theorems settling the specification claims about it.

Embedded source files:
- src/models.py        : `RewriteRule`
- src/adguard_client.py: `get_rewrite_rules`, `_make_rule_request`, `sync_rules`
- src/database.py      : `load_managed_rules`, `_try_backup_restore`,
                         `save_managed_rules`, `_create_backup`,
                         `_cleanup_old_backups`, `_save_to_file`
- src/app.py           : `AdGuardDNSSync.sync_rules` (the per-cycle driver)

Modelling conventions:
- Python dicts `Dict[str, RewriteRule]` are association lists
  `List (String × RewriteRule)`; a genuine Python dict has unique keys, and
  set views of keys are modelled with `List.dedup` (Python iterates sets in
  an unspecified order, so any order is faithful).
- The float safety threshold (default `0.8`) is embedded as the exact
  rational `thresholdNum / thresholdDen = 4 / 5`; the guard comparison
  `len(to_delete) > len(managed) * threshold` is embedded cross-multiplied
  over Nat.  For the sizes reachable here (far below 2^52) the Python
  float comparison with the default threshold agrees with the exact
  rational comparison.
- Network effects are passed in explicitly: the outcome of the one
  `list()` call is a `ListResponse` value, and the outcome of each
  create/update/delete request is an oracle `String → Bool` giving the
  final success of `_make_rule_request` for the affected domain.
- Filesystem state of the rule database is a `DBState` value; file bodies
  are `FileData` values that either fail to parse or parse to a list of
  per-record entries (each entry valid or structurally invalid).
-/

/-- Mirror of `models.RewriteRule`: domain, answer and enabled flag. -/
structure RewriteRule where
  domain : String
  answer : String
  enabled : Bool
deriving DecidableEq, Repr

/-- A Python `Dict[str, RewriteRule]` as an association list. -/
abbrev RuleMap := List (String × RewriteRule)

/-- Key set of a rule dict, as a deduplicated list (Python `set(d.keys())`). -/
def keysOf (m : RuleMap) : List String :=
  (m.map Prod.fst).dedup

/-- Key set of a rule dict, as a `Finset` (for claim-level statements). -/
def domainsOf (m : RuleMap) : Finset String :=
  (m.map Prod.fst).toFinset

/-- Dict lookup `m[d]` (`none` when the key is absent). -/
def findRule (m : RuleMap) (d : String) : Option RewriteRule :=
  List.lookup d m

/-- Dict assignment `m[k] = v`: overwrite in place if present, else append. -/
def dictInsert (m : RuleMap) (k : String) (v : RewriteRule) : RuleMap :=
  if (m.map Prod.fst).contains k then
    m.map (fun p => if p.1 = k then (k, v) else p)
  else
    m ++ [(k, v)]

/-- Configuration values read from the environment in
`AdGuardHomeClientV2.__init__` and `RuleDatabase.__init__`.  The safety
threshold is kept as an exact rational `thresholdNum / thresholdDen`. -/
structure Config where
  maxRetries : Nat
  retryDelay : Nat
  thresholdNum : Nat
  thresholdDen : Nat
  maxBackups : Nat
deriving DecidableEq, Repr

/-- The default configuration: `ADGUARD_MAX_RETRIES=3`,
`ADGUARD_RETRY_DELAY=2`, `ADGUARD_SAFETY_THRESHOLD=0.8` (= 4/5),
`DB_MAX_BACKUPS=5`. -/
def defaultConfig : Config :=
  { maxRetries := 3, retryDelay := 2, thresholdNum := 4, thresholdDen := 5
    maxBackups := 5 }

/-- Mirror of `_validate_configuration` in `adguard_client.py` and
`database.py`: retries in 1..10, delay in 1..60, threshold in [0.1, 1.0],
backups in 1..50. -/
def validConfig (c : Config) : Prop :=
  1 ≤ c.maxRetries ∧ c.maxRetries ≤ 10 ∧
  1 ≤ c.retryDelay ∧ c.retryDelay ≤ 60 ∧
  0 < c.thresholdDen ∧
  c.thresholdDen ≤ c.thresholdNum * 10 ∧ c.thresholdNum ≤ c.thresholdDen ∧
  1 ≤ c.maxBackups ∧ c.maxBackups ≤ 50

/-- One element of the JSON array returned by `/control/rewrite/list`:
either not a JSON object, or an object with optional fields.  `hasDomain`
and `hasAnswer` mirror the `all(key in rule_data ...)` membership test in
`get_rewrite_rules`; `enabled` is `none` when the field is absent (the
code then defaults it to `True`). -/
inductive RemoteItem where
  | notDict : RemoteItem
  | item (hasDomain hasAnswer : Bool) (domain answer : String)
      (enabled : Option Bool) : RemoteItem
deriving DecidableEq, Repr

/-- Outcome of the HTTP GET in `get_rewrite_rules`: a transport-level
exception, a non-200 status, a 200 whose body is not a JSON list, or a
200 with a JSON list body. -/
inductive ListResponse where
  | transportError : ListResponse
  | badStatus (code : Nat) : ListResponse
  | okNotList : ListResponse
  | okList (items : List RemoteItem) : ListResponse
deriving DecidableEq, Repr

/-- Folding step of the parsing loop in `get_rewrite_rules`: keep objects
that have both a `domain` and an `answer` key; `enabled` defaults to
`True`; the rule is stored under `rule.domain`. -/
def insertRemoteItem (acc : RuleMap) (it : RemoteItem) : RuleMap :=
  match it with
  | .notDict => acc
  | .item hasDomain hasAnswer d a en =>
    if hasDomain && hasAnswer then
      dictInsert acc d { domain := d, answer := a, enabled := en.getD true }
    else acc

/-- Mirror of `AdGuardHomeClientV2.get_rewrite_rules`: every failure path
(transport exception, non-200 status, non-list body) returns the empty
dict, indistinguishable from a successful empty list body. -/
def get_rewrite_rules (resp : ListResponse) : RuleMap :=
  match resp with
  | .transportError => []
  | .badStatus _ => []
  | .okNotList => []
  | .okList items => items.foldl insertRemoteItem []

/-- The update-needed test of `sync_rules` (line `current_rule.answer !=
rule.answer or current_rule.enabled != rule.enabled`).  Both lookups are
`some` whenever the test is reached; other cases are unreachable and map
to `false`. -/
def needsUpdate (cur tgt : Option RewriteRule) : Bool :=
  match cur, tgt with
  | some c, some t => decide (c.answer ≠ t.answer) || decide (c.enabled ≠ t.enabled)
  | _, _ => false

/-- The three-way diff of one cycle, at set level: `toCreate` and
`toDelete` as computed at lines 239/243 of `adguard_client.py`, and
`toUpdate` restricted to the domains for which an update mutation is
actually issued (the difference test at line 278). -/
structure MutationPlan where
  toCreate : Finset String
  toUpdate : Finset String
  toDelete : Finset String
deriving DecidableEq

/-- The mutation plan computed by `sync_rules` from the desired (target),
remote (current) and managed rule sets. -/
def computePlan (target current : RuleMap) (managedDomains : Finset String) :
    MutationPlan :=
  { toCreate := domainsOf target \ domainsOf current
    toUpdate := (domainsOf current ∩ domainsOf target).filter
      (fun d => needsUpdate (findRule current d) (findRule target d) = true)
    toDelete := managedDomains \ domainsOf target }

/-- Result of one `sync_rules` call: overall boolean result, the domains
for which a create / update / delete request was sent to the provider,
and the success counters. -/
structure SyncOutcome where
  success : Bool
  createCalls : List String
  updateCalls : List String
  deleteCalls : List String
  rulesCreated : Nat
  rulesUpdated : Nat
  rulesDeleted : Nat
deriving DecidableEq, Repr

/-- The outcome of an aborted cycle: `return False` before any mutation. -/
def abortOutcome : SyncOutcome :=
  { success := false, createCalls := [], updateCalls := [], deleteCalls := []
    rulesCreated := 0, rulesUpdated := 0, rulesDeleted := 0 }

/-- The `app_managed_domains` of `sync_rules`: the keys of the managed
dict when one was provided, else the empty set (the code then only
adds/updates, never deletes). -/
def managedKeysOf : Option RuleMap → List String
  | some m => keysOf m
  | none => []

/-- Finset view of `managedKeysOf`. -/
def managedDomainsOf : Option RuleMap → Finset String
  | some m => domainsOf m
  | none => ∅

/-- Mirror of `AdGuardHomeClientV2.sync_rules`.  `resp` is the outcome of
the single `get_rewrite_rules` call; `createOk`/`updateOk`/`deleteOk`
give the final result of `_make_rule_request` for each domain.  The
managed argument is `none` when no managed dict was supplied (the code
then refuses to delete anything). -/
def sync_rules (cfg : Config) (target_rules : RuleMap)
    (managed_rules : Option RuleMap) (resp : ListResponse)
    (createOk updateOk deleteOk : String → Bool) : SyncOutcome :=
  let current_rules := get_rewrite_rules resp
  if current_rules.isEmpty then abortOutcome
  else
    let app_managed_domains := managedKeysOf managed_rules
    let current_domains := keysOf current_rules
    let target_domains := keysOf target_rules
    let to_add_or_update := target_domains.filter
      (fun d => !(current_domains.contains d))
    let to_update := current_domains.filter
      (fun d => target_domains.contains d)
    let to_delete := app_managed_domains.filter
      (fun d => !(target_domains.contains d))
    if to_delete.length * cfg.thresholdDen >
        app_managed_domains.length * cfg.thresholdNum then
      abortOutcome
    else
      let updateCalls := to_update.filter
        (fun d => needsUpdate (findRule current_rules d) (findRule target_rules d))
      let deleteCalls := to_delete.filter
        (fun d => current_domains.contains d)
      { success := true
        createCalls := to_add_or_update
        updateCalls := updateCalls
        deleteCalls := deleteCalls
        rulesCreated := (to_add_or_update.filter createOk).length
        rulesUpdated := (updateCalls.filter updateOk).length
        rulesDeleted := (to_delete.filter
          (fun d => if current_domains.contains d then deleteOk d else true)).length }

/-- Mirror of the retry loop of `_make_rule_request`.  `attempt` is the
current 0-based attempt index, `remaining` the number of attempts left
(including the current one); `outcome i` tells whether attempt `i`
receives HTTP 200.  Returns (final result, number of attempts made, list
of sleeps performed between consecutive attempts). -/
def make_rule_request_aux (retryDelay : Nat) (outcome : Nat → Bool) :
    Nat → Nat → Bool × Nat × List Nat
  | attempt, 0 => (false, attempt, [])
  | attempt, remaining + 1 =>
    if outcome attempt then (true, attempt + 1, [])
    else
      let rest := make_rule_request_aux retryDelay outcome (attempt + 1) remaining
      if remaining = 0 then rest
      else (rest.1, rest.2.1, retryDelay :: rest.2.2)

/-- Mirror of `_make_rule_request`: up to `maxRetries` attempts, sleeping
the fixed `retryDelay` after every failed attempt except the last, and
returning `False` (not raising) when all attempts failed. -/
def make_rule_request (cfg : Config) (outcome : Nat → Bool) :
    Bool × Nat × List Nat :=
  make_rule_request_aux cfg.retryDelay outcome 0 cfg.maxRetries

/-- One record value inside a persisted JSON dict: either structurally
invalid (not an object, or missing one of `domain`/`answer`/`enabled`),
or a valid record.  Invalid records are skipped individually by
`_load_from_file`. -/
inductive RecordData where
  | invalid : RecordData
  | valid (rule : RewriteRule) : RecordData
deriving DecidableEq, Repr

/-- Body of a persisted database file: either it fails structural parsing
(`json.loads` raises, or the top level is not a dict — both surface as
the caught exception classes), or it is a JSON dict of records. -/
inductive FileData where
  | malformed : FileData
  | dict (entries : List (String × RecordData)) : FileData
deriving DecidableEq, Repr

/-- Mirror of `RuleDatabase._load_from_file`: raise on malformed content
(modelled as `Except.error`), otherwise keep exactly the per-record valid
entries. -/
def load_from_file (f : FileData) : Except Unit RuleMap :=
  match f with
  | .malformed => .error ()
  | .dict entries => .ok (entries.filterMap
      (fun p => match p.2 with
        | .valid r => some (p.1, r)
        | .invalid => none))

/-- Mirror of `RuleDatabase._save_to_file`'s serialization: the saved file
is a JSON dict holding every rule of the map. -/
def serialize (rules : RuleMap) : FileData :=
  .dict (rules.map (fun p => (p.1, .valid p.2)))

/-- Filesystem state of the rule database directory: the primary file
(`db_file`), the fixed-name backup (`db_file.backup`), the timestamped
backup generations (`db_file.backup.<ts>`, keyed by their timestamp), and
the quarantined files (`*.corrupted.<ts>`, keyed by the quarantine
time). -/
structure DBState where
  primary : Option FileData
  backupMain : Option FileData
  backups : List (Nat × FileData)
  quarantined : List (Nat × FileData)
deriving DecidableEq, Repr

/-- Insert one timestamped file into a list sorted by descending
timestamp. -/
def insertDesc (p : Nat × FileData) : List (Nat × FileData) → List (Nat × FileData)
  | [] => [p]
  | q :: rest => if q.1 ≤ p.1 then p :: q :: rest else q :: insertDesc p rest

/-- The `sorted(glob.glob(...), reverse=True)` view of the backup
generations: newest (largest timestamp) first.  The on-disk filenames
embed a fixed-width timestamp, so lexicographic filename order is
timestamp order. -/
def sortDesc : List (Nat × FileData) → List (Nat × FileData)
  | [] => []
  | p :: rest => insertDesc p (sortDesc rest)

/-- Mirror of `RuleDatabase._cleanup_corrupted_file` applied to the
primary file: move it (not delete it) to a timestamped `.corrupted`
name. -/
def cleanup_corrupted_primary (now : Nat) (st : DBState) : DBState :=
  match st.primary with
  | some f => { st with primary := none, quarantined := (now, f) :: st.quarantined }
  | none => st

/-- The scan of `RuleDatabase._try_backup_restore` over the timestamped
generations: return the first file (newest first) that parses, together
with its parsed rules — even when those rules are empty. -/
def first_parsing_backup : List (Nat × FileData) → Option (FileData × RuleMap)
  | [] => none
  | (_, f) :: rest =>
    match load_from_file f with
    | .ok rules => some (f, rules)
    | .error _ => first_parsing_backup rest

/-- Mirror of `RuleDatabase._try_backup_restore`: try the timestamped
generations newest-first; on success copy the winning backup over the
primary and return its rules; otherwise try the fixed-name backup file;
otherwise return the empty dict. -/
def try_backup_restore (st : DBState) : RuleMap × DBState :=
  match first_parsing_backup (sortDesc st.backups) with
  | some (f, rules) => (rules, { st with primary := some f })
  | none =>
    match st.backupMain with
    | some f =>
      match load_from_file f with
      | .ok rules => (rules, { st with primary := some f })
      | .error _ => ([], st)
    | none => ([], st)

/-- Mirror of `RuleDatabase.load_managed_rules`.  `now` is the wall-clock
timestamp used for quarantine names.  Returns the loaded rules and the
filesystem state after any quarantine/restore side effects. -/
def load_managed_rules (now : Nat) (st : DBState) : RuleMap × DBState :=
  match st.primary with
  | some f =>
    (match load_from_file f with
     | .ok rules =>
       if rules.isEmpty then ([], cleanup_corrupted_primary now st)
       else (rules, st)
     | .error _ => try_backup_restore (cleanup_corrupted_primary now st))
  | none =>
    match st.backupMain with
    | some f =>
      (match load_from_file f with
       | .ok rules =>
         if rules.isEmpty then ([], st)
         else (rules, { st with primary := some f })
       | .error _ =>
         ([], { st with backupMain := none
                        quarantined := (now, f) :: st.quarantined }))
    | none => ([], st)

/-- Mirror of `RuleDatabase._cleanup_old_backups`: keep only the
`maxBackups` newest generations (by filename timestamp), discarding the
oldest first. -/
def cleanup_old_backups (maxBackups : Nat) (bs : List (Nat × FileData)) :
    List (Nat × FileData) :=
  (sortDesc bs).take maxBackups

/-- Mirror of `RuleDatabase._create_backup` (only called when the primary
exists): copy the primary to a new timestamped generation, refresh the
fixed-name backup file, then prune old generations. -/
def create_backup (cfg : Config) (ts : Nat) (st : DBState) : DBState :=
  match st.primary with
  | some f =>
    { st with backups := cleanup_old_backups cfg.maxBackups ((ts, f) :: st.backups)
              backupMain := some f }
  | none => st

/-- Mirror of `RuleDatabase.save_managed_rules`: back up the existing
primary (if any), then write the serialized rules to a temporary file and
atomically rename it over the primary.  The write-then-rename pair is one
atomic state update here, which is exactly the guarantee the rename
provides. -/
def save_managed_rules (cfg : Config) (rules : RuleMap) (ts : Nat)
    (st : DBState) : DBState :=
  let st1 :=
    match st.primary with
    | some _ => create_backup cfg ts st
    | none => st
  { st1 with primary := some (serialize rules) }

/-- Mirror of `AdGuardDNSSync.sync_rules` in `app.py`: load the managed
rules, run the client sync against the freshly generated desired rules,
and persist the desired rules as the new managed set only when the sync
reported success. -/
def app_sync_rules (cfg : Config) (desired : RuleMap) (resp : ListResponse)
    (createOk updateOk deleteOk : String → Bool) (now : Nat) (st : DBState) :
    Bool × DBState :=
  let loaded := load_managed_rules now st
  let out := sync_rules cfg desired (some loaded.1) resp createOk updateOk deleteOk
  if out.success then (true, save_managed_rules cfg desired now loaded.2)
  else (false, loaded.2)

/-- A list of sleep durations is strictly increasing from each attempt to
the next.  This is the property the specification asserts of the retry
delays of `_make_rule_request`. -/
def increasingDelays : List Nat → Bool
  | a :: b :: rest => (decide (a < b)) && increasingDelays (b :: rest)
  | _ => true

/-- Ten managed rules for the concrete safety-guard scenario. -/
def c2Managed : RuleMap :=
  [("d0", ⟨"d0", "10.0.0.0", true⟩), ("d1", ⟨"d1", "10.0.0.1", true⟩),
   ("d2", ⟨"d2", "10.0.0.2", true⟩), ("d3", ⟨"d3", "10.0.0.3", true⟩),
   ("d4", ⟨"d4", "10.0.0.4", true⟩), ("d5", ⟨"d5", "10.0.0.5", true⟩),
   ("d6", ⟨"d6", "10.0.0.6", true⟩), ("d7", ⟨"d7", "10.0.0.7", true⟩),
   ("d8", ⟨"d8", "10.0.0.8", true⟩), ("d9", ⟨"d9", "10.0.0.9", true⟩)]

/-- A desired set keeping only one of the ten managed rules. -/
def c2Desired : RuleMap := [("d0", ⟨"d0", "10.0.0.0", true⟩)]

/-- A remote listing holding all ten managed rules. -/
def c2Resp : ListResponse :=
  .okList [.item true true "d0" "10.0.0.0" none, .item true true "d1" "10.0.0.1" none,
           .item true true "d2" "10.0.0.2" none, .item true true "d3" "10.0.0.3" none,
           .item true true "d4" "10.0.0.4" none, .item true true "d5" "10.0.0.5" none,
           .item true true "d6" "10.0.0.6" none, .item true true "d7" "10.0.0.7" none,
           .item true true "d8" "10.0.0.8" none, .item true true "d9" "10.0.0.9" none]

/-- A store whose primary file holds the ten managed rules. -/
def c2Store : DBState :=
  { primary := some (serialize c2Managed), backupMain := none
    backups := [], quarantined := [] }

/-- Desired set for the partial-apply scenario: x (needs update) and y
(needs create). -/
def c5Desired : RuleMap :=
  [("x", ⟨"x", "1.1.1.1", true⟩), ("y", ⟨"y", "2.2.2.2", true⟩)]

/-- Remote listing for the partial-apply scenario: x exists with a stale
answer, y does not exist. -/
def c5Resp : ListResponse :=
  .okList [.item true true "x" "9.9.9.9" none]

/-- Store for the partial-apply scenario: x was previously managed. -/
def c5Store : DBState :=
  { primary := some (serialize [("x", ⟨"x", "9.9.9.9", true⟩)])
    backupMain := none, backups := [], quarantined := [] }

/-- Single-rule managed sets used by the backup-rotation scenario. -/
def c7Rules (a : String) : RuleMap := [("a", ⟨"a", a, true⟩)]

/-- Retention-3 configuration for the backup-rotation scenario. -/
def c7Cfg : Config :=
  { maxRetries := 3, retryDelay := 2, thresholdNum := 4, thresholdDen := 5
    maxBackups := 3 }

/-! Helper lemmas connecting the executable list-level code to the
Finset-level claim statements. -/

lemma mem_keysOf {m : RuleMap} {d : String} : d ∈ keysOf m ↔ d ∈ domainsOf m := by
  simp [keysOf, domainsOf]

lemma keysOf_nodup (m : RuleMap) : (keysOf m).Nodup :=
  List.nodup_dedup _

lemma contains_keysOf {m : RuleMap} {d : String} :
    (keysOf m).contains d = true ↔ d ∈ domainsOf m := by
  rw [List.elem_iff]; exact mem_keysOf

lemma mem_managedKeysOf {o : Option RuleMap} {d : String} :
    d ∈ managedKeysOf o ↔ d ∈ managedDomainsOf o := by
  cases o <;> simp [managedKeysOf, managedDomainsOf, mem_keysOf]

lemma managedKeysOf_nodup (o : Option RuleMap) : (managedKeysOf o).Nodup := by
  cases o <;> simp [managedKeysOf, keysOf_nodup]

lemma findRule_isSome_iff (m : RuleMap) (d : String) :
    (findRule m d).isSome = true ↔ d ∈ domainsOf m := by
  induction m with
  | nil => simp [findRule, domainsOf, List.lookup]
  | cons p rest ih =>
    cases p with
    | mk k v =>
      by_cases h : d = k
      · simp [findRule, List.lookup, domainsOf, h]
      · have hb : (d == k) = false := beq_eq_false_iff_ne.mpr h
        simp only [findRule, List.lookup, hb] at *
        simp only [domainsOf, List.map_cons, List.toFinset_cons, Finset.mem_insert] at *
        simp [h, ih]

lemma needsUpdate_self (x : Option RewriteRule) : needsUpdate x x = false := by
  cases x <;> simp [needsUpdate]

lemma keysOf_length (m : RuleMap) : (keysOf m).length = (domainsOf m).card := by
  simp [keysOf, domainsOf, List.card_toFinset]

lemma managedKeysOf_length (o : Option RuleMap) :
    (managedKeysOf o).length = (managedDomainsOf o).card := by
  cases o <;> simp [managedKeysOf, managedDomainsOf, keysOf_length]

lemma filter_keysOf_length (m : RuleMap) (p : String → Bool) :
    ((keysOf m).filter p).length
      = ((domainsOf m).filter (fun d => p d = true)).card := by
  have hnd : ((keysOf m).filter p).Nodup := (keysOf_nodup m).filter _
  rw [← List.toFinset_card_of_nodup hnd]
  congr 1
  ext x
  simp [List.mem_filter, mem_keysOf]

lemma filter_managedKeysOf_length (o : Option RuleMap) (p : String → Bool) :
    ((managedKeysOf o).filter p).length
      = ((managedDomainsOf o).filter (fun d => p d = true)).card := by
  cases o with
  | none => simp [managedKeysOf, managedDomainsOf]
  | some m => exact filter_keysOf_length m p

lemma sync_rules_abort_empty (cfg : Config) (target : RuleMap)
    (managed : Option RuleMap) (resp : ListResponse)
    (cOk uOk dOk : String → Bool)
    (hne : (get_rewrite_rules resp).isEmpty = true) :
    sync_rules cfg target managed resp cOk uOk dOk = abortOutcome := by
  simp [sync_rules, hne]

lemma sync_rules_abort_guard (cfg : Config) (target : RuleMap)
    (managed : Option RuleMap) (resp : ListResponse)
    (cOk uOk dOk : String → Bool)
    (hg : ((managedKeysOf managed).filter
        (fun d => !((keysOf target).contains d))).length * cfg.thresholdDen >
      (managedKeysOf managed).length * cfg.thresholdNum) :
    sync_rules cfg target managed resp cOk uOk dOk = abortOutcome := by
  by_cases hne : (get_rewrite_rules resp).isEmpty = true
  · simp [sync_rules, hne]
  · simp only [sync_rules]
    rw [if_neg hne, if_pos hg]

lemma sync_rules_run (cfg : Config) (target : RuleMap) (managed : Option RuleMap)
    (resp : ListResponse) (cOk uOk dOk : String → Bool)
    (hne : (get_rewrite_rules resp).isEmpty = false)
    (hg : ¬ (((managedKeysOf managed).filter
        (fun d => !((keysOf target).contains d))).length * cfg.thresholdDen >
        (managedKeysOf managed).length * cfg.thresholdNum)) :
    sync_rules cfg target managed resp cOk uOk dOk =
      { success := true
        createCalls := (keysOf target).filter
          (fun d => !((keysOf (get_rewrite_rules resp)).contains d))
        updateCalls := ((keysOf (get_rewrite_rules resp)).filter
            (fun d => (keysOf target).contains d)).filter
          (fun d => needsUpdate (findRule (get_rewrite_rules resp) d)
            (findRule target d))
        deleteCalls := ((managedKeysOf managed).filter
            (fun d => !((keysOf target).contains d))).filter
          (fun d => (keysOf (get_rewrite_rules resp)).contains d)
        rulesCreated := (((keysOf target).filter
          (fun d => !((keysOf (get_rewrite_rules resp)).contains d))).filter
            cOk).length
        rulesUpdated := ((((keysOf (get_rewrite_rules resp)).filter
            (fun d => (keysOf target).contains d)).filter
          (fun d => needsUpdate (findRule (get_rewrite_rules resp) d)
            (findRule target d))).filter uOk).length
        rulesDeleted := (((managedKeysOf managed).filter
            (fun d => !((keysOf target).contains d))).filter
          (fun d => if (keysOf (get_rewrite_rules resp)).contains d
            then dOk d else true)).length } := by
  simp only [sync_rules]
  rw [if_neg (by rw [hne]; exact Bool.false_ne_true), if_neg hg]

lemma make_rule_request_aux_count (d : Nat) (o : Nat → Bool) :
    ∀ (remaining attempt : Nat),
      (make_rule_request_aux d o attempt remaining).2.1 ≤ attempt + remaining := by
  intro remaining
  induction remaining with
  | zero => intro a; simp [make_rule_request_aux]
  | succ n ih =>
    intro a
    simp only [make_rule_request_aux]
    by_cases h : o a
    · simp only [h, if_true]
      omega
    · by_cases hn : n = 0
      · subst hn
        simp [h, make_rule_request_aux]
      · have hr := ih (a + 1)
        simp only [h, Bool.false_eq_true, if_false, if_neg hn]
        omega

lemma make_rule_request_aux_delays (d : Nat) (o : Nat → Bool) :
    ∀ (remaining attempt : Nat) (x : Nat),
      x ∈ (make_rule_request_aux d o attempt remaining).2.2 → x = d := by
  intro remaining
  induction remaining with
  | zero => intro a x hx; simp [make_rule_request_aux] at hx
  | succ n ih =>
    intro a x hx
    simp only [make_rule_request_aux] at hx
    by_cases h : o a
    · simp [h] at hx
    · by_cases hn : n = 0
      · subst hn
        simp [h, make_rule_request_aux] at hx
      · simp only [h, Bool.false_eq_true, if_false, if_neg hn, List.mem_cons] at hx
        rcases hx with hx | hx
        · exact hx
        · exact ih (a + 1) x hx

lemma make_rule_request_aux_all_fail (d : Nat) (o : Nat → Bool) :
    ∀ (remaining attempt : Nat),
      (∀ i, attempt ≤ i → i < attempt + remaining → o i = false) →
      (make_rule_request_aux d o attempt remaining).1 = false := by
  intro remaining
  induction remaining with
  | zero => intro a _; simp [make_rule_request_aux]
  | succ n ih =>
    intro a hfail
    have ha : o a = false := hfail a (Nat.le_refl a) (by omega)
    have hr := ih (a + 1) (fun i h1 h2 => hfail i (by omega) (by omega))
    simp only [make_rule_request_aux, ha]
    by_cases hn : n = 0
    · subst hn
      simp [make_rule_request_aux]
    · simp only [Bool.false_eq_true, if_false, if_neg hn]
      exact hr

lemma toDelete_length (o : Option RuleMap) (target : RuleMap) :
    ((managedKeysOf o).filter (fun d => !((keysOf target).contains d))).length
      = (managedDomainsOf o \ domainsOf target).card := by
  rw [filter_managedKeysOf_length]
  congr 1
  ext x
  simp [contains_keysOf, mem_keysOf]

lemma load_serialize (rules : RuleMap) :
    load_from_file (serialize rules) = .ok rules := by
  simp only [load_from_file, serialize]
  congr 1
  induction rules with
  | nil => rfl
  | cons p rest ih =>
    simp only [List.map_cons, List.filterMap_cons]
    simp [ih]

lemma load_clean (now : Nat) (st : DBState) (f : FileData) (m : RuleMap)
    (hp : st.primary = some f) (hl : load_from_file f = .ok m) (hne : m ≠ []) :
    load_managed_rules now st = (m, st) := by
  have hie : m.isEmpty = false := by
    cases m with
    | nil => exact absurd rfl hne
    | cons a l => rfl
  simp [load_managed_rules, hp, hl, hie]

lemma save_primary (cfg : Config) (rules : RuleMap) (ts : Nat) (st : DBState) :
    (save_managed_rules cfg rules ts st).primary = some (serialize rules) := by
  simp only [save_managed_rules]

lemma mem_insertDesc {p q : Nat × FileData} {l : List (Nat × FileData)} :
    q ∈ insertDesc p l ↔ q = p ∨ q ∈ l := by
  induction l with
  | nil => simp [insertDesc]
  | cons r rest ih =>
    simp only [insertDesc]
    by_cases h : r.1 ≤ p.1
    · simp [h, List.mem_cons]
    · simp only [h, if_false, List.mem_cons, ih]
      tauto

lemma mem_sortDesc {q : Nat × FileData} {l : List (Nat × FileData)} :
    q ∈ sortDesc l ↔ q ∈ l := by
  induction l with
  | nil => simp [sortDesc]
  | cons p rest ih => simp [sortDesc, mem_insertDesc, ih]

lemma insertDesc_front {p : Nat × FileData} {l : List (Nat × FileData)}
    (h : ∀ q ∈ l, q.1 ≤ p.1) : insertDesc p l = p :: l := by
  cases l with
  | nil => rfl
  | cons q rest =>
    simp only [insertDesc, if_pos (h q (List.mem_cons_self q rest))]


/-! The claims. -/

/-- C1: for every reconciliation cycle, with arbitrary desired, remote and
managed inputs, the computed deletion set is a subset of the managed keys,
and no domain that is present in the remote set but absent from the
managed set is ever passed to the gateway's delete operation, even when
that domain is absent from the desired set. -/
theorem claim1_ownership_invariant (cfg : Config) (target : RuleMap)
    (managed : Option RuleMap) (resp : ListResponse)
    (cOk uOk dOk : String → Bool) :
    (computePlan target (get_rewrite_rules resp)
        (managedDomainsOf managed)).toDelete ⊆ managedDomainsOf managed ∧
    (∀ d ∈ (sync_rules cfg target managed resp cOk uOk dOk).deleteCalls,
      d ∈ managedDomainsOf managed) ∧
    (∀ d ∈ domainsOf (get_rewrite_rules resp), d ∉ managedDomainsOf managed →
      d ∉ (sync_rules cfg target managed resp cOk uOk dOk).deleteCalls) := by
  have h2 : ∀ d ∈ (sync_rules cfg target managed resp cOk uOk dOk).deleteCalls,
      d ∈ managedDomainsOf managed := by
    intro d hd
    cases hE : (get_rewrite_rules resp).isEmpty with
    | true =>
      rw [sync_rules_abort_empty cfg target managed resp cOk uOk dOk hE] at hd
      simp [abortOutcome] at hd
    | false =>
      by_cases hg : ((managedKeysOf managed).filter
          (fun d => !((keysOf target).contains d))).length * cfg.thresholdDen >
          (managedKeysOf managed).length * cfg.thresholdNum
      · rw [sync_rules_abort_guard cfg target managed resp cOk uOk dOk hg] at hd
        simp [abortOutcome] at hd
      · rw [sync_rules_run cfg target managed resp cOk uOk dOk hE hg] at hd
        simp only [List.mem_filter] at hd
        exact mem_managedKeysOf.mp hd.1.1
  refine ⟨Finset.sdiff_subset, h2, ?_⟩
  intro d _ hnm hd
  exact hnm (h2 d hd)

/-- Witness for C1 at a concrete input: the remote set contains `"z"`, the
managed set does not, and `"z"` is not among the issued delete calls. -/
theorem claim1_witness :
    "z" ∉ (sync_rules defaultConfig [("x", ⟨"x", "10.0.0.1", true⟩)]
      (some [("m", ⟨"m", "10.0.0.9", true⟩)])
      (.okList [.item true true "z" "10.0.0.3" none,
                .item true true "m" "10.0.0.9" none])
      (fun _ => true) (fun _ => true) (fun _ => true)).deleteCalls :=
  (claim1_ownership_invariant defaultConfig [("x", ⟨"x", "10.0.0.1", true⟩)]
    (some [("m", ⟨"m", "10.0.0.9", true⟩)])
    (.okList [.item true true "z" "10.0.0.3" none,
              .item true true "m" "10.0.0.9" none])
    (fun _ => true) (fun _ => true) (fun _ => true)).2.2 "z"
    (by decide) (by decide)

/-- C2: if the loaded managed set is non-empty and the deletion set
exceeds the safety-threshold fraction of it, `sync_rules` aborts before
issuing any create, update or delete call and the persisted store file is
left unchanged; and if the managed set is empty, the deletion set is
empty and the guard does not block the cycle (creates/updates proceed
whenever the remote set was retrieved non-empty). -/
theorem claim2_safety_guard (cfg : Config) :
    (∀ (desired : RuleMap) (resp : ListResponse) (cOk uOk dOk : String → Bool)
        (now : Nat) (st : DBState) (f : FileData) (m : RuleMap),
      st.primary = some f → load_from_file f = .ok m → m ≠ [] →
      (computePlan desired (get_rewrite_rules resp) (domainsOf m)).toDelete.card
          * cfg.thresholdDen > (domainsOf m).card * cfg.thresholdNum →
      sync_rules cfg desired (some m) resp cOk uOk dOk = abortOutcome ∧
      app_sync_rules cfg desired resp cOk uOk dOk now st = (false, st)) ∧
    (∀ (desired : RuleMap) (resp : ListResponse) (cOk uOk dOk : String → Bool),
      (computePlan desired (get_rewrite_rules resp)
        (domainsOf ([] : RuleMap))).toDelete = ∅ ∧
      ((get_rewrite_rules resp).isEmpty = false →
        (sync_rules cfg desired (some []) resp cOk uOk dOk).success = true)) := by
  constructor
  · intro desired resp cOk uOk dOk now st f m hp hl hne hguard
    have hg : ((managedKeysOf (some m)).filter
        (fun d => !((keysOf desired).contains d))).length * cfg.thresholdDen >
        (managedKeysOf (some m)).length * cfg.thresholdNum := by
      rw [toDelete_length, managedKeysOf_length]
      simpa [computePlan, managedDomainsOf] using hguard
    have habort := sync_rules_abort_guard cfg desired (some m) resp cOk uOk dOk hg
    refine ⟨habort, ?_⟩
    rw [app_sync_rules, load_clean now st f m hp hl hne]
    simp [habort, abortOutcome]
  · intro desired resp cOk uOk dOk
    constructor
    · simp [computePlan, domainsOf]
    · intro hne
      have hg : ¬ (((managedKeysOf (some [])).filter
          (fun d => !((keysOf desired).contains d))).length * cfg.thresholdDen >
          (managedKeysOf (some [])).length * cfg.thresholdNum) := by
        simp [managedKeysOf, keysOf]
      rw [sync_rules_run cfg desired (some []) resp cOk uOk dOk hne hg]

/-- Witness for C2: with 10 managed rules and a desired set keeping 1 of
them (9 deletions, limit 8), the cycle aborts with zero mutations and the
store state unchanged. -/
theorem claim2_witness :
    sync_rules defaultConfig c2Desired (some c2Managed) c2Resp
      (fun _ => true) (fun _ => true) (fun _ => true) = abortOutcome ∧
    app_sync_rules defaultConfig c2Desired c2Resp
      (fun _ => true) (fun _ => true) (fun _ => true) 99 c2Store =
      (false, c2Store) :=
  (claim2_safety_guard defaultConfig).1 c2Desired c2Resp
    (fun _ => true) (fun _ => true) (fun _ => true) 99 c2Store
    (serialize c2Managed) c2Managed rfl (by rfl) (by decide) (by decide)

/-- Counterexample to C3: the provider successfully returns an empty rule
list (HTTP 200, empty JSON array) while one rule is desired, yet the
cycle aborts and the create is NOT applied — the code cannot distinguish
a successful empty body from a transport error, and aborts on both. -/
theorem claim3_counterexample :
    sync_rules defaultConfig [("x", ⟨"x", "10.0.0.1", true⟩)] (some [])
      (.okList []) (fun _ => true) (fun _ => true) (fun _ => true) =
      abortOutcome ∧
    abortOutcome.success = false ∧ abortOutcome.createCalls = [] := by
  decide

/-- C3 amended: an explicit transport error on the list call yields the
empty dict, and every cycle whose retrieved remote set is empty — whether
from a transport error or from a genuinely empty provider — aborts with
no mutation issued and no store write. -/
theorem claim3_amended (cfg : Config) (desired : RuleMap)
    (resp : ListResponse) (cOk uOk dOk : String → Bool)
    (now : Nat) (st : DBState) (f : FileData) (m : RuleMap)
    (hp : st.primary = some f) (hl : load_from_file f = .ok m) (hne : m ≠ [])
    (hempty : (get_rewrite_rules resp).isEmpty = true) :
    get_rewrite_rules .transportError = [] ∧
    sync_rules cfg desired (some m) resp cOk uOk dOk = abortOutcome ∧
    app_sync_rules cfg desired resp cOk uOk dOk now st = (false, st) := by
  have habort := sync_rules_abort_empty cfg desired (some m) resp cOk uOk dOk hempty
  refine ⟨rfl, habort, ?_⟩
  rw [app_sync_rules, load_clean now st f m hp hl hne]
  simp [habort, abortOutcome]

/-- Witness for the amended C3: a transport error on the list call aborts
the concrete cycle with no mutation and no store write. -/
theorem claim3_witness :
    get_rewrite_rules .transportError = [] ∧
    sync_rules defaultConfig [("x", ⟨"x", "10.0.0.1", true⟩)]
      (some [("m", ⟨"m", "10.0.0.9", true⟩)]) .transportError
      (fun _ => true) (fun _ => true) (fun _ => true) = abortOutcome ∧
    app_sync_rules defaultConfig [("x", ⟨"x", "10.0.0.1", true⟩)]
      .transportError (fun _ => true) (fun _ => true) (fun _ => true) 99
      { primary := some (serialize [("m", ⟨"m", "10.0.0.9", true⟩)])
        backupMain := none, backups := [], quarantined := [] } =
      (false,
        { primary := some (serialize [("m", ⟨"m", "10.0.0.9", true⟩)])
          backupMain := none, backups := [], quarantined := [] }) :=
  claim3_amended defaultConfig [("x", ⟨"x", "10.0.0.1", true⟩)]
    .transportError (fun _ => true) (fun _ => true) (fun _ => true) 99
    { primary := some (serialize [("m", ⟨"m", "10.0.0.9", true⟩)])
      backupMain := none, backups := [], quarantined := [] }
    (serialize [("m", ⟨"m", "10.0.0.9", true⟩)])
    [("m", ⟨"m", "10.0.0.9", true⟩)] rfl (by rfl) (by decide) (by rfl)

/-- C4: the mutation plan creates exactly the desired domains absent from
the remote set; a domain present in both sets gets an update mutation iff
the remote rule differs from the desired rule in answer or enabled flag,
and is otherwise untouched; and the concrete three-way scenario
(desired x,y / remote x,z / managed z) yields create {y}, update empty,
delete {z}. -/
theorem claim4_three_way_diff :
    (∀ (target current : RuleMap) (managedD : Finset String) (d : String),
      (d ∈ (computePlan target current managedD).toCreate ↔
        d ∈ domainsOf target ∧ d ∉ domainsOf current) ∧
      (d ∈ (computePlan target current managedD).toUpdate ↔
        d ∈ domainsOf current ∧ d ∈ domainsOf target ∧
          needsUpdate (findRule current d) (findRule target d) = true) ∧
      (d ∈ domainsOf current → d ∈ domainsOf target →
        needsUpdate (findRule current d) (findRule target d) = false →
        d ∉ (computePlan target current managedD).toCreate ∧
        d ∉ (computePlan target current managedD).toUpdate ∧
        d ∉ (computePlan target current managedD).toDelete)) ∧
    computePlan
      [("x", ⟨"x", "10.0.0.1", true⟩), ("y", ⟨"y", "10.0.0.2", true⟩)]
      [("x", ⟨"x", "10.0.0.1", true⟩), ("z", ⟨"z", "10.0.0.3", true⟩)]
      (domainsOf [("z", ⟨"z", "10.0.0.3", true⟩)]) =
      { toCreate := {"y"}, toUpdate := ∅, toDelete := {"z"} } := by
  constructor
  · intro target current managedD d
    refine ⟨?_, ?_, ?_⟩
    · simp [computePlan]
    · simp only [computePlan, Finset.mem_filter, Finset.mem_inter]
      tauto
    · intro hc ht hnu
      refine ⟨?_, ?_, ?_⟩
      · simp [computePlan, hc]
      · simp [computePlan, Finset.mem_filter, hnu]
      · simp [computePlan, ht]
  · decide

/-- Witness for C4: in the concrete three-way scenario, domain x (present
remotely with the matching rule) is untouched by all three plan
components. -/
theorem claim4_witness :
    "x" ∉ (computePlan
      [("x", ⟨"x", "10.0.0.1", true⟩), ("y", ⟨"y", "10.0.0.2", true⟩)]
      [("x", ⟨"x", "10.0.0.1", true⟩), ("z", ⟨"z", "10.0.0.3", true⟩)]
      (domainsOf [("z", ⟨"z", "10.0.0.3", true⟩)])).toCreate ∧
    "x" ∉ (computePlan
      [("x", ⟨"x", "10.0.0.1", true⟩), ("y", ⟨"y", "10.0.0.2", true⟩)]
      [("x", ⟨"x", "10.0.0.1", true⟩), ("z", ⟨"z", "10.0.0.3", true⟩)]
      (domainsOf [("z", ⟨"z", "10.0.0.3", true⟩)])).toUpdate ∧
    "x" ∉ (computePlan
      [("x", ⟨"x", "10.0.0.1", true⟩), ("y", ⟨"y", "10.0.0.2", true⟩)]
      [("x", ⟨"x", "10.0.0.1", true⟩), ("z", ⟨"z", "10.0.0.3", true⟩)]
      (domainsOf [("z", ⟨"z", "10.0.0.3", true⟩)])).toDelete :=
  (claim4_three_way_diff.1
    [("x", ⟨"x", "10.0.0.1", true⟩), ("y", ⟨"y", "10.0.0.2", true⟩)]
    [("x", ⟨"x", "10.0.0.1", true⟩), ("z", ⟨"z", "10.0.0.3", true⟩)]
    (domainsOf [("z", ⟨"z", "10.0.0.3", true⟩)]) "x").2.2
    (by decide) (by decide) (by decide)

/-- C5: every cycle that is aborted neither at step 1 (remote retrieval)
nor at step 5 (safety guard) ends by persisting exactly the desired set
as the new managed set — independently of the per-domain mutation
outcomes, which only affect the counters. -/
theorem claim5_persist_desired (cfg : Config) (desired : RuleMap)
    (resp : ListResponse) (cOk uOk dOk : String → Bool) (now : Nat)
    (st : DBState)
    (hne : (get_rewrite_rules resp).isEmpty = false)
    (hg : ¬ ((computePlan desired (get_rewrite_rules resp)
        (domainsOf (load_managed_rules now st).1)).toDelete.card
          * cfg.thresholdDen
        > (domainsOf (load_managed_rules now st).1).card * cfg.thresholdNum)) :
    app_sync_rules cfg desired resp cOk uOk dOk now st =
      (true, save_managed_rules cfg desired now (load_managed_rules now st).2) ∧
    (app_sync_rules cfg desired resp cOk uOk dOk now st).2.primary
      = some (serialize desired) ∧
    load_from_file (serialize desired) = .ok desired := by
  have hgl : ¬ (((managedKeysOf (some (load_managed_rules now st).1)).filter
      (fun d => !((keysOf desired).contains d))).length * cfg.thresholdDen >
      (managedKeysOf (some (load_managed_rules now st).1)).length
        * cfg.thresholdNum) := by
    rw [toDelete_length, managedKeysOf_length]
    simpa [computePlan, managedDomainsOf] using hg
  have hrun := sync_rules_run cfg desired (some (load_managed_rules now st).1)
    resp cOk uOk dOk hne hgl
  have happ : app_sync_rules cfg desired resp cOk uOk dOk now st =
      (true, save_managed_rules cfg desired now (load_managed_rules now st).2) := by
    simp only [app_sync_rules]
    simp [hrun]
  refine ⟨happ, ?_, load_serialize desired⟩
  rw [happ]
  exact save_primary cfg desired now (load_managed_rules now st).2

/-- Witness for C5: the update of x fails, the create of y succeeds, and
the persisted managed set still contains both x and y. -/
theorem claim5_witness :
    app_sync_rules defaultConfig c5Desired c5Resp (fun d => d == "y")
      (fun _ => false) (fun _ => true) 99 c5Store =
      (true, save_managed_rules defaultConfig c5Desired 99
        (load_managed_rules 99 c5Store).2) ∧
    (app_sync_rules defaultConfig c5Desired c5Resp (fun d => d == "y")
      (fun _ => false) (fun _ => true) 99 c5Store).2.primary
      = some (serialize c5Desired) ∧
    findRule c5Desired "x" = some ⟨"x", "1.1.1.1", true⟩ ∧
    findRule c5Desired "y" = some ⟨"y", "2.2.2.2", true⟩ := by
  have h := claim5_persist_desired defaultConfig c5Desired c5Resp
    (fun d => d == "y") (fun _ => false) (fun _ => true) 99 c5Store
    (by rfl) (by decide)
  exact ⟨h.1, h.2.1, by decide, by decide⟩

lemma try_backup_restore_state (st : DBState) :
    (try_backup_restore st).2.quarantined = st.quarantined ∧
    (try_backup_restore st).2.backups = st.backups ∧
    (try_backup_restore st).2.backupMain = st.backupMain := by
  unfold try_backup_restore
  cases hfb : first_parsing_backup (sortDesc st.backups) with
  | some p => cases p; simp
  | none =>
    cases hbm : st.backupMain with
    | none => simp [hbm]
    | some b => cases hlb : load_from_file b <;> simp [hbm, hlb]

/-- Counterexample to C6: the primary is corrupt, and a valid non-empty
backup generation exists (timestamp 1), but the newest generation
(timestamp 2) parses to zero rules, so load returns the empty managed set
even though a valid file exists. -/
theorem claim6_counterexample :
    (load_managed_rules 9
      { primary := some .malformed, backupMain := none
        backups := [(2, serialize []),
                    (1, serialize [("b", ⟨"b", "2.2.2.2", true⟩)])]
        quarantined := [] }).1 = [] ∧
    load_from_file (serialize [("b", ⟨"b", "2.2.2.2", true⟩)]) =
      .ok [("b", ⟨"b", "2.2.2.2", true⟩)] ∧
    [("b", ⟨"b", "2.2.2.2", true⟩)] ≠ ([] : RuleMap) :=
  ⟨by decide, rfl, by decide⟩

/-- C6 amended: when the primary file exists but fails to parse, load
quarantines it under a timestamped name (it is not deleted), falls back
to the backup generations newest-first and returns the parse result of
the first generation that parses (even when that result is empty); it
never raises; when no generation parses it falls back to the fixed-name
backup file, returning its rules (and restoring it over the primary)
when it parses; and only when nothing parses — a malformed fixed backup
or no fixed backup at all — does it return the empty managed set. -/
theorem claim6_amended (now : Nat) (st : DBState) (f : FileData)
    (hp : st.primary = some f) (hl : load_from_file f = .error ()) :
    (now, f) ∈ (load_managed_rules now st).2.quarantined ∧
    (∀ (g : FileData) (r : RuleMap),
      first_parsing_backup (sortDesc st.backups) = some (g, r) →
      (load_managed_rules now st).1 = r ∧
      (load_managed_rules now st).2.primary = some g) ∧
    (∀ (g : FileData) (r : RuleMap),
      first_parsing_backup (sortDesc st.backups) = none →
      st.backupMain = some g → load_from_file g = .ok r →
      (load_managed_rules now st).1 = r ∧
      (load_managed_rules now st).2.primary = some g) ∧
    (∀ (g : FileData),
      first_parsing_backup (sortDesc st.backups) = none →
      st.backupMain = some g → load_from_file g = .error () →
      (load_managed_rules now st).1 = []) ∧
    (first_parsing_backup (sortDesc st.backups) = none →
      st.backupMain = none → (load_managed_rules now st).1 = []) := by
  have hload : load_managed_rules now st =
      try_backup_restore
        { st with primary := none
                  quarantined := (now, f) :: st.quarantined } := by
    simp [load_managed_rules, hp, hl, cleanup_corrupted_primary]
  refine ⟨?_, ?_, ?_, ?_, ?_⟩
  · rw [hload]
    have hq := (try_backup_restore_state
      { st with primary := none
                quarantined := (now, f) :: st.quarantined }).1
    rw [hq]
    exact List.mem_cons_self _ _
  · intro g r hfb
    rw [hload]
    simp [try_backup_restore, hfb]
  · intro g r hfb hbm hlg
    rw [hload]
    simp [try_backup_restore, hfb, hbm, hlg]
  · intro g hfb hbm hlg
    rw [hload]
    simp [try_backup_restore, hfb, hbm, hlg]
  · intro hfb hbm
    rw [hload]
    simp [try_backup_restore, hfb, hbm]

/-- Witness for the amended C6: after saving over a primary that held
rule b, corrupting the primary and loading returns the prior backup's
content (rule b), not an empty set, and the corrupt primary is
quarantined; and when no generation parses but the fixed-name backup
does, its content is returned. -/
theorem claim6_witness :
    (load_managed_rules 7
      { primary := some .malformed
        backupMain := some (serialize [("c", ⟨"c", "3.3.3.3", true⟩)])
        backups := [(1, .malformed)], quarantined := [] }).1 =
      [("c", ⟨"c", "3.3.3.3", true⟩)] ∧
    (load_managed_rules 2
      { save_managed_rules defaultConfig [("a", ⟨"a", "1.1.1.1", true⟩)] 1
          { primary := some (serialize [("b", ⟨"b", "2.2.2.2", true⟩)])
            backupMain := none, backups := [], quarantined := [] } with
        primary := some .malformed }).1 =
      [("b", ⟨"b", "2.2.2.2", true⟩)] ∧
    (load_managed_rules 2
      { save_managed_rules defaultConfig [("a", ⟨"a", "1.1.1.1", true⟩)] 1
          { primary := some (serialize [("b", ⟨"b", "2.2.2.2", true⟩)])
            backupMain := none, backups := [], quarantined := [] } with
        primary := some .malformed }).1 ≠ [] ∧
    (2, FileData.malformed) ∈ (load_managed_rules 2
      { save_managed_rules defaultConfig [("a", ⟨"a", "1.1.1.1", true⟩)] 1
          { primary := some (serialize [("b", ⟨"b", "2.2.2.2", true⟩)])
            backupMain := none, backups := [], quarantined := [] } with
        primary := some .malformed }).2.quarantined := by
  have h := claim6_amended 2
    { save_managed_rules defaultConfig [("a", ⟨"a", "1.1.1.1", true⟩)] 1
        { primary := some (serialize [("b", ⟨"b", "2.2.2.2", true⟩)])
          backupMain := none, backups := [], quarantined := [] } with
      primary := some .malformed } .malformed rfl rfl
  have h1 := (h.2.1 (serialize [("b", ⟨"b", "2.2.2.2", true⟩)])
    [("b", ⟨"b", "2.2.2.2", true⟩)] (by decide)).1
  have hfix := claim6_amended 7
    { primary := some .malformed
      backupMain := some (serialize [("c", ⟨"c", "3.3.3.3", true⟩)])
      backups := [(1, .malformed)], quarantined := [] } .malformed rfl rfl
  exact ⟨(hfix.2.2.1 (serialize [("c", ⟨"c", "3.3.3.3", true⟩)])
      [("c", ⟨"c", "3.3.3.3", true⟩)] (by decide) rfl (by rfl)).1,
    h1, by rw [h1]; decide, h.1⟩

/-- C7: saving over an existing primary copies the old primary to a new
timestamped generation and to the fixed-name latest backup, atomically
replaces the primary with the new content, and prunes the generations to
the retention count keeping the newest; with retention 3, five
consecutive saves over an existing primary leave exactly 3 generations
and the latest backup equals the most recent prior primary. -/
theorem claim7_backup_rotation :
    (∀ (cfg : Config) (rules : RuleMap) (ts : Nat) (st : DBState) (f : FileData),
      st.primary = some f → (∀ q ∈ st.backups, q.1 < ts) →
      1 ≤ cfg.maxBackups →
      (save_managed_rules cfg rules ts st).primary = some (serialize rules) ∧
      (save_managed_rules cfg rules ts st).backupMain = some f ∧
      (save_managed_rules cfg rules ts st).backups =
        (ts, f) :: (sortDesc st.backups).take (cfg.maxBackups - 1) ∧
      (save_managed_rules cfg rules ts st).backups.length ≤ cfg.maxBackups) ∧
    save_managed_rules c7Cfg (c7Rules "10.0.0.5") 5
      (save_managed_rules c7Cfg (c7Rules "10.0.0.4") 4
        (save_managed_rules c7Cfg (c7Rules "10.0.0.3") 3
          (save_managed_rules c7Cfg (c7Rules "10.0.0.2") 2
            (save_managed_rules c7Cfg (c7Rules "10.0.0.1") 1
              { primary := some (serialize (c7Rules "9.9.9.9"))
                backupMain := none, backups := [], quarantined := [] })))) =
      { primary := some (serialize (c7Rules "10.0.0.5"))
        backupMain := some (serialize (c7Rules "10.0.0.4"))
        backups := [(5, serialize (c7Rules "10.0.0.4")),
                    (4, serialize (c7Rules "10.0.0.3")),
                    (3, serialize (c7Rules "10.0.0.2"))]
        quarantined := [] } := by
  constructor
  · intro cfg rules ts st f hp hts hmax
    have hsorted : ∀ q ∈ sortDesc st.backups, q.1 ≤ ts := by
      intro q hq
      exact Nat.le_of_lt (hts q (mem_sortDesc.mp hq))
    have hsd : sortDesc ((ts, f) :: st.backups) =
        (ts, f) :: sortDesc st.backups := by
      simp only [sortDesc]
      exact insertDesc_front hsorted
    have hbk : (save_managed_rules cfg rules ts st).backups =
        cleanup_old_backups cfg.maxBackups ((ts, f) :: st.backups) := by
      simp [save_managed_rules, create_backup, hp]
    have hbm : (save_managed_rules cfg rules ts st).backupMain = some f := by
      simp [save_managed_rules, create_backup, hp]
    refine ⟨save_primary cfg rules ts st, hbm, ?_, ?_⟩
    · rw [hbk]
      unfold cleanup_old_backups
      rw [hsd]
      obtain ⟨k, hk⟩ : ∃ k, cfg.maxBackups = k + 1 :=
        ⟨cfg.maxBackups - 1, by omega⟩
      rw [hk]
      simp [List.take_succ_cons]
    · rw [hbk]
      unfold cleanup_old_backups
      have hlen := List.length_take cfg.maxBackups
        (sortDesc ((ts, f) :: st.backups))
      omega
  · decide

/-- Witness for C7: the fifth save of the rotation scenario, applied to
the state left by the first four saves, backs up the fourth content,
replaces the primary with the fifth, and keeps at most 3 generations. -/
theorem claim7_witness :
    DBState.primary (save_managed_rules c7Cfg (c7Rules "10.0.0.5") 5
      (save_managed_rules c7Cfg (c7Rules "10.0.0.4") 4
        (save_managed_rules c7Cfg (c7Rules "10.0.0.3") 3
          (save_managed_rules c7Cfg (c7Rules "10.0.0.2") 2
            (save_managed_rules c7Cfg (c7Rules "10.0.0.1") 1
              { primary := some (serialize (c7Rules "9.9.9.9"))
                backupMain := none, backups := [], quarantined := [] })))))
      = some (serialize (c7Rules "10.0.0.5")) ∧
    DBState.backupMain (save_managed_rules c7Cfg (c7Rules "10.0.0.5") 5
      (save_managed_rules c7Cfg (c7Rules "10.0.0.4") 4
        (save_managed_rules c7Cfg (c7Rules "10.0.0.3") 3
          (save_managed_rules c7Cfg (c7Rules "10.0.0.2") 2
            (save_managed_rules c7Cfg (c7Rules "10.0.0.1") 1
              { primary := some (serialize (c7Rules "9.9.9.9"))
                backupMain := none, backups := [], quarantined := [] })))))
      = some (serialize (c7Rules "10.0.0.4")) ∧
    (DBState.backups (save_managed_rules c7Cfg (c7Rules "10.0.0.5") 5
      (save_managed_rules c7Cfg (c7Rules "10.0.0.4") 4
        (save_managed_rules c7Cfg (c7Rules "10.0.0.3") 3
          (save_managed_rules c7Cfg (c7Rules "10.0.0.2") 2
            (save_managed_rules c7Cfg (c7Rules "10.0.0.1") 1
              { primary := some (serialize (c7Rules "9.9.9.9"))
                backupMain := none, backups := [], quarantined := [] })))))).length
      ≤ c7Cfg.maxBackups := by
  have h := claim7_backup_rotation.1 c7Cfg (c7Rules "10.0.0.5") 5
    (save_managed_rules c7Cfg (c7Rules "10.0.0.4") 4
      (save_managed_rules c7Cfg (c7Rules "10.0.0.3") 3
        (save_managed_rules c7Cfg (c7Rules "10.0.0.2") 2
          (save_managed_rules c7Cfg (c7Rules "10.0.0.1") 1
            { primary := some (serialize (c7Rules "9.9.9.9"))
              backupMain := none, backups := [], quarantined := [] }))))
    (serialize (c7Rules "10.0.0.4")) (by rfl) (by decide) (by decide)
  exact ⟨h.1, h.2.1, h.2.2.2⟩

/-- Counterexample to C8: with the default configuration (3 retries,
delay 2) a mutation request whose attempts all fail sleeps [2, 2] — the
delay between consecutive attempts is constant, not increasing. -/
theorem claim8_counterexample :
    make_rule_request defaultConfig (fun _ => false) = (false, 3, [2, 2]) ∧
    increasingDelays [2, 2] = false := by
  decide

/-- C8 amended: each gateway mutation call makes at most the configured
number of attempts, sleeping the fixed configured delay (not an
increasing one) between consecutive attempts, and returns boolean failure
after exhausting them; and the set of issued create/update/delete calls
and the cycle result are independent of the per-item outcomes — one
item's failure never blocks the rest of the cycle. -/
theorem claim8_amended (cfg : Config) (outcome : Nat → Bool) :
    (make_rule_request cfg outcome).2.1 ≤ cfg.maxRetries ∧
    (∀ x ∈ (make_rule_request cfg outcome).2.2, x = cfg.retryDelay) ∧
    ((∀ i, i < cfg.maxRetries → outcome i = false) →
      (make_rule_request cfg outcome).1 = false) ∧
    (∀ (target : RuleMap) (managed : Option RuleMap) (resp : ListResponse)
        (c1 u1 d1 c2 u2 d2 : String → Bool),
      (sync_rules cfg target managed resp c1 u1 d1).success =
        (sync_rules cfg target managed resp c2 u2 d2).success ∧
      (sync_rules cfg target managed resp c1 u1 d1).createCalls =
        (sync_rules cfg target managed resp c2 u2 d2).createCalls ∧
      (sync_rules cfg target managed resp c1 u1 d1).updateCalls =
        (sync_rules cfg target managed resp c2 u2 d2).updateCalls ∧
      (sync_rules cfg target managed resp c1 u1 d1).deleteCalls =
        (sync_rules cfg target managed resp c2 u2 d2).deleteCalls) := by
  refine ⟨?_, ?_, ?_, ?_⟩
  · have h := make_rule_request_aux_count cfg.retryDelay outcome cfg.maxRetries 0
    simpa [make_rule_request] using h
  · intro x hx
    exact make_rule_request_aux_delays cfg.retryDelay outcome cfg.maxRetries 0 x hx
  · intro hfail
    exact make_rule_request_aux_all_fail cfg.retryDelay outcome cfg.maxRetries 0
      (fun i _ h2 => hfail i (by omega))
  · intro target managed resp c1 u1 d1 c2 u2 d2
    cases hE : (get_rewrite_rules resp).isEmpty with
    | true =>
      rw [sync_rules_abort_empty cfg target managed resp c1 u1 d1 hE,
          sync_rules_abort_empty cfg target managed resp c2 u2 d2 hE]
      exact ⟨rfl, rfl, rfl, rfl⟩
    | false =>
      by_cases hg : ((managedKeysOf managed).filter
          (fun d => !((keysOf target).contains d))).length * cfg.thresholdDen >
          (managedKeysOf managed).length * cfg.thresholdNum
      · rw [sync_rules_abort_guard cfg target managed resp c1 u1 d1 hg,
            sync_rules_abort_guard cfg target managed resp c2 u2 d2 hg]
        exact ⟨rfl, rfl, rfl, rfl⟩
      · rw [sync_rules_run cfg target managed resp c1 u1 d1 hE hg,
            sync_rules_run cfg target managed resp c2 u2 d2 hE hg]
        exact ⟨rfl, rfl, rfl, rfl⟩

/-- Witness for the amended C8: an always-failing request under the
default configuration returns false and makes at most 3 attempts. -/
theorem claim8_witness :
    (make_rule_request defaultConfig (fun _ => false)).1 = false ∧
    (make_rule_request defaultConfig (fun _ => false)).2.1 ≤ 3 :=
  ⟨(claim8_amended defaultConfig (fun _ => false)).2.2.1 (fun _ _ => rfl),
   (claim8_amended defaultConfig (fun _ => false)).1⟩

/-- C9: a second reconciliation run with the same desired set, managed
set equal to the desired set (persisted by the first run), and a provider
whose records match every desired domain issues zero mutations: no
create, update or delete calls, and all counters stay zero. -/
theorem claim9_idempotence (cfg : Config) (target : RuleMap)
    (resp : ListResponse) (cOk uOk dOk : String → Bool)
    (hmatch : ∀ d ∈ domainsOf target,
      findRule (get_rewrite_rules resp) d = findRule target d) :
    (sync_rules cfg target (some target) resp cOk uOk dOk).createCalls = [] ∧
    (sync_rules cfg target (some target) resp cOk uOk dOk).updateCalls = [] ∧
    (sync_rules cfg target (some target) resp cOk uOk dOk).deleteCalls = [] ∧
    (sync_rules cfg target (some target) resp cOk uOk dOk).rulesCreated = 0 ∧
    (sync_rules cfg target (some target) resp cOk uOk dOk).rulesUpdated = 0 ∧
    (sync_rules cfg target (some target) resp cOk uOk dOk).rulesDeleted = 0 := by
  cases hE : (get_rewrite_rules resp).isEmpty with
  | true =>
    rw [sync_rules_abort_empty cfg target (some target) resp cOk uOk dOk hE]
    simp [abortOutcome]
  | false =>
    have hdel : (managedKeysOf (some target)).filter
        (fun d => !((keysOf target).contains d)) = [] := by
      apply List.filter_eq_nil_iff.mpr
      intro a ha
      have ha' : a ∈ keysOf target := by simpa [managedKeysOf] using ha
      simp [ha']
    have hg : ¬ (((managedKeysOf (some target)).filter
          (fun d => !((keysOf target).contains d))).length * cfg.thresholdDen >
        (managedKeysOf (some target)).length * cfg.thresholdNum) := by
      rw [hdel]
      simp
    have hcr : (keysOf target).filter
        (fun d => !((keysOf (get_rewrite_rules resp)).contains d)) = [] := by
      apply List.filter_eq_nil_iff.mpr
      intro a ha
      have hmem : a ∈ domainsOf target := mem_keysOf.mp ha
      have hsome : (findRule (get_rewrite_rules resp) a).isSome = true := by
        rw [hmatch a hmem]
        exact (findRule_isSome_iff target a).mpr hmem
      have hmem2 : a ∈ keysOf (get_rewrite_rules resp) :=
        mem_keysOf.mpr ((findRule_isSome_iff _ a).mp hsome)
      simp [hmem2]
    have hupd : ((keysOf (get_rewrite_rules resp)).filter
        (fun d => (keysOf target).contains d)).filter
        (fun d => needsUpdate (findRule (get_rewrite_rules resp) d)
          (findRule target d)) = [] := by
      apply List.filter_eq_nil_iff.mpr
      intro a ha
      have hmem : a ∈ domainsOf target :=
        contains_keysOf.mp (List.mem_filter.mp ha).2
      rw [hmatch a hmem]
      simp [needsUpdate_self]
    rw [sync_rules_run cfg target (some target) resp cOk uOk dOk hE hg]
    refine ⟨?_, ?_, ?_, ?_, ?_, ?_⟩
    · exact hcr
    · exact hupd
    · show ((managedKeysOf (some target)).filter
        (fun d => !((keysOf target).contains d))).filter
        (fun d => (keysOf (get_rewrite_rules resp)).contains d) = []
      rw [hdel]
      rfl
    · show (((keysOf target).filter
        (fun d => !((keysOf (get_rewrite_rules resp)).contains d))).filter
          cOk).length = 0
      rw [hcr]
      rfl
    · show ((((keysOf (get_rewrite_rules resp)).filter
        (fun d => (keysOf target).contains d)).filter
        (fun d => needsUpdate (findRule (get_rewrite_rules resp) d)
          (findRule target d))).filter uOk).length = 0
      rw [hupd]
      rfl
    · show (((managedKeysOf (some target)).filter
        (fun d => !((keysOf target).contains d))).filter
        (fun d => if (keysOf (get_rewrite_rules resp)).contains d
          then dOk d else true)).length = 0
      rw [hdel]
      rfl

/-- Witness for C9: one desired rule, already present remotely with the
matching answer and enabled flag, and managed equal to desired — the
second run issues nothing. -/
theorem claim9_witness :
    (sync_rules defaultConfig [("x", ⟨"x", "1.1.1.1", true⟩)]
      (some [("x", ⟨"x", "1.1.1.1", true⟩)])
      (.okList [.item true true "x" "1.1.1.1" none])
      (fun _ => true) (fun _ => true) (fun _ => true)).createCalls = [] ∧
    (sync_rules defaultConfig [("x", ⟨"x", "1.1.1.1", true⟩)]
      (some [("x", ⟨"x", "1.1.1.1", true⟩)])
      (.okList [.item true true "x" "1.1.1.1" none])
      (fun _ => true) (fun _ => true) (fun _ => true)).updateCalls = [] ∧
    (sync_rules defaultConfig [("x", ⟨"x", "1.1.1.1", true⟩)]
      (some [("x", ⟨"x", "1.1.1.1", true⟩)])
      (.okList [.item true true "x" "1.1.1.1" none])
      (fun _ => true) (fun _ => true) (fun _ => true)).deleteCalls = [] ∧
    (sync_rules defaultConfig [("x", ⟨"x", "1.1.1.1", true⟩)]
      (some [("x", ⟨"x", "1.1.1.1", true⟩)])
      (.okList [.item true true "x" "1.1.1.1" none])
      (fun _ => true) (fun _ => true) (fun _ => true)).rulesCreated = 0 ∧
    (sync_rules defaultConfig [("x", ⟨"x", "1.1.1.1", true⟩)]
      (some [("x", ⟨"x", "1.1.1.1", true⟩)])
      (.okList [.item true true "x" "1.1.1.1" none])
      (fun _ => true) (fun _ => true) (fun _ => true)).rulesUpdated = 0 ∧
    (sync_rules defaultConfig [("x", ⟨"x", "1.1.1.1", true⟩)]
      (some [("x", ⟨"x", "1.1.1.1", true⟩)])
      (.okList [.item true true "x" "1.1.1.1" none])
      (fun _ => true) (fun _ => true) (fun _ => true)).rulesDeleted = 0 :=
  claim9_idempotence defaultConfig [("x", ⟨"x", "1.1.1.1", true⟩)]
    (.okList [.item true true "x" "1.1.1.1" none])
    (fun _ => true) (fun _ => true) (fun _ => true) (by decide)

/-- C10: when the primary file parses as a valid dict but yields zero
valid rules, load returns the empty managed set, moves the primary to a
timestamped corrupted name, and leaves the backup generations and the
fixed-name backup untouched and unconsulted — for every backup
configuration whatsoever. -/
theorem claim10_empty_primary_quarantined (now : Nat) (st : DBState)
    (f : FileData) (hp : st.primary = some f)
    (hl : load_from_file f = .ok []) :
    load_managed_rules now st =
      ([], { st with primary := none
                     quarantined := (now, f) :: st.quarantined }) := by
  simp [load_managed_rules, hp, hl, cleanup_corrupted_primary]

/-- Witness for C10: a primary serialized from the empty managed set is
quarantined and load returns empty even though a valid non-empty backup
generation is present. -/
theorem claim10_witness :
    load_managed_rules 5
      { primary := some (serialize []), backupMain := none
        backups := [(1, serialize [("b", ⟨"b", "2.2.2.2", true⟩)])]
        quarantined := [] } =
      ([], { primary := none, backupMain := none
             backups := [(1, serialize [("b", ⟨"b", "2.2.2.2", true⟩)])]
             quarantined := [(5, serialize [])] }) :=
  claim10_empty_primary_quarantined 5
    { primary := some (serialize []), backupMain := none
      backups := [(1, serialize [("b", ⟨"b", "2.2.2.2", true⟩)])]
      quarantined := [] } (serialize []) rfl (by rfl)
